import Mathlib

/-!
Verification development for the LabfolderPy client library
(`labfolder/classes/data_elements.py`, `entries.py`, `labfolder_access.py`).

The Python code is shallowly embedded: JSON scalars become the inductive
type `Val`, wire table grids become association lists, pandas DataFrames
become `DFrame` (an ordered column list plus row-major cell lists), and
Python exceptions become `Except PyErr`.  Each definition mirrors one
function (or one clearly delimited code path) of the source; comments cite
the file and line range being modelled.
-/

set_option autoImplicit false

namespace LabfolderPy

/-- Scalar cell values that occur in the JSON wire format and inside the
in-memory DataFrames: strings, integers, Python `None`, and the IEEE
specials `nan`, `inf`, `-inf` (kept as symbolic constructors — the claims
under verification only distinguish these values, never do arithmetic on
them). -/
inductive Val where
  | vStr (s : String)
  | vInt (n : Int)
  | vNone
  | vNaN
  | vInf
  | vNegInf
deriving DecidableEq, Repr

/-- pandas "missing" test: `None` and `NaN` count as NA (as in `dropna`);
`inf` and `-inf` do not. -/
def Val.isNA : Val → Bool
  | .vNone => true
  | .vNaN => true
  | _ => false

/-- `DataFrame.replace({np.nan: None, np.inf: None, -np.inf: None})`
applied to one cell (data_elements.py lines 1009-1011). -/
def sanitize : Val → Val
  | .vNaN => .vNone
  | .vInf => .vNone
  | .vNegInf => .vNone
  | v => v

/-- `DataFrame.fillna(np.nan)` applied to one cell (line 883): every NA
value (Python `None` included) becomes `NaN`. -/
def fillna : Val → Val
  | .vNone => .vNaN
  | v => v

/-- The Python exception kinds that the modelled code can raise or catch. -/
inductive PyErr where
  | typeErr
  | valueErr
  | keyErr
  | attributeErr
  | indexErr
deriving DecidableEq, Repr

/-- One cell of a wire grid: either a JSON object (a dict, whose `"value"`
entry may be present or absent) or a malformed non-dict value. -/
inductive CellV where
  | obj (v : Option Val)
  | raw (v : Val)
deriving DecidableEq, Repr

/-- One wire row: the ordered dict mapping column key to cell.  (Python
dicts preserve insertion order; only that order matters downstream, since
`pd.DataFrame(data)` indexes the assembled rows positionally.) -/
abbrev WireRow := List (Val × CellV)

/-- A wire grid (`content.sheets[s].data.dataTable`): the rows in key
order. -/
abbrev Grid := List WireRow

/-- `table[row][col].get("value", None)` (line 876): on a dict, return the
`"value"` entry or `None`; on a non-dict, attribute lookup of `.get`
raises `AttributeError`. -/
def cellGet : CellV → Except PyErr Val
  | .obj (some v) => .ok v
  | .obj none => .ok .vNone
  | .raw _ => .error .attributeErr

/-- The dict comprehension inside the `try` of `table_to_pandas`
(lines 874-879): evaluate the cells in key order, aborting at the first
exception. -/
def buildRowTry : WireRow → Except PyErr (List (Val × Val))
  | [] => .ok []
  | (k, c) :: rest =>
    match cellGet c with
    | .error e => .error e
    | .ok v =>
      match buildRowTry rest with
      | .error e => .error e
      | .ok vs => .ok ((k, v) :: vs)

/-- The `try/except KeyError` around the row build (lines 873-881): on
`KeyError` the row is rebuilt as all-`None` over its own keys.  Note that
for JSON-shaped data the comprehension can only raise `AttributeError`
(`dict.get` never raises `KeyError`), so the fallback branch is
unreachable there — exactly the asymmetry claims C4 is about. -/
def buildRow (r : WireRow) : Except PyErr (List (Val × Val)) :=
  match buildRowTry r with
  | .error .keyErr => .ok (r.map (fun kc => (kc.1, Val.vNone)))
  | other => other

/-- The `for row in table.keys()` loop of `table_to_pandas`
(lines 871-881): build every row, aborting the whole function at the
first uncaught exception. -/
def buildRows : Grid → Except PyErr (List (List (Val × Val)))
  | [] => .ok []
  | r :: rs =>
    match buildRow r with
    | .error e => .error e
    | .ok d =>
      match buildRows rs with
      | .error e => .error e
      | .ok ds => .ok (d :: ds)

/-- Column keys of a built row. -/
def rowKeys (r : List (Val × Val)) : List Val := r.map (fun kv => kv.1)

/-- Accumulate the keys of one row in first-appearance order, as
`pd.DataFrame(data)` does when forming the column union. -/
def addKeys (acc : List Val) (r : List (Val × Val)) : List Val :=
  r.foldl (fun a kv => if kv.1 ∈ a then a else a ++ [kv.1]) acc

/-- The column set of `pd.DataFrame(data)`: union of all row keys, ordered
by first appearance. -/
def unionKeys (data : List (List (Val × Val))) : List Val :=
  data.foldl addKeys []

/-- First-match association lookup (Python dict access; keys inside one
dict are unique). -/
def lookupVal : List (Val × Val) → Val → Option Val
  | [], _ => none
  | (k, v) :: rest, key => if k = key then some v else lookupVal rest key

/-- The cell a rectangularized DataFrame holds at column `k` of a built
row: absent keys become NA, then `fillna(np.nan)` normalises `None` to
`NaN` (lines 882-883). -/
def rectCell (r : List (Val × Val)) (k : Val) : Val :=
  fillna ((lookupVal r k).getD .vNone)

/-- One rectangularized row, aligned with the sheet-wide column list. -/
def rectRow (cols : List Val) (r : List (Val × Val)) : List Val :=
  cols.map (rectCell r)

/-- A DataFrame that still carries its integer index labels (needed
because `df.drop(0)` at line 888 drops by *label*, not by position). -/
structure RawFrame where
  cols : List Val
  rows : List (Nat × List Val)
deriving DecidableEq, Repr

/-- Attach the default `RangeIndex` labels `i, i+1, ...` to a row list. -/
def labelFrom : Nat → List (List Val) → List (Nat × List Val)
  | _, [] => []
  | i, r :: rs => (i, r) :: labelFrom (i + 1) rs

/-- `pd.DataFrame(data).fillna(np.nan)` (lines 882-883): rectangularize the
built rows over the column union and give them labels `0..n-1`. -/
def rectFrame (data : List (List (Val × Val))) : RawFrame :=
  ⟨unionKeys data, labelFrom 0 (data.map (rectRow (unionKeys data)))⟩

/-- A row survives `dropna(axis=0, how="all")` iff it has a non-NA cell
(pandas keeps a row iff its non-NA count is positive, so a zero-column
row is dropped). -/
def rowNonNull (r : List Val) : Bool := r.any (fun v => !v.isNA)

/-- `df.dropna(axis=0, how="all", inplace=True)` (line 884). -/
def dropRows (f : RawFrame) : RawFrame :=
  ⟨f.cols, f.rows.filter (fun lr => rowNonNull lr.2)⟩

/-- A column position `j` survives `dropna(axis=1, how="all")` iff some
remaining row holds a non-NA value there. -/
def colNonNull (rows : List (Nat × List Val)) (j : Nat) : Bool :=
  rows.any (fun lr =>
    match lr.2.get? j with
    | some v => !v.isNA
    | none => false)

/-- The keep/drop mask over column positions used by
`dropna(axis=1, how="all")`. -/
def keepMask (f : RawFrame) : List Bool :=
  (List.range f.cols.length).map (colNonNull f.rows)

/-- Keep the elements of a list whose mask entry is `true`. -/
def maskFilter {α : Type} : List Bool → List α → List α
  | b :: bs, a :: rest =>
    if b then a :: maskFilter bs rest else maskFilter bs rest
  | _, _ => []

/-- `df.dropna(axis=1, how="all", inplace=True)` (line 885), applied after
the row drop as in the source. -/
def dropCols (f : RawFrame) : RawFrame :=
  ⟨maskFilter (keepMask f) f.cols,
   f.rows.map (fun lr => (lr.1, maskFilter (keepMask f) lr.2))⟩

/-- The header step (lines 886-888): `df.columns = df.iloc[0].tolist()`
takes the *positionally first* surviving row as the column names
(raising `IndexError` on an empty frame), and `df.drop(0, inplace=True)`
removes the row with index *label* 0, raising `KeyError` when that label
was pruned away. -/
def applyHeader (f : RawFrame) : Except PyErr RawFrame :=
  match f.rows with
  | [] => .error .indexErr
  | r0 :: _ =>
    if f.rows.any (fun lr => lr.1 == 0) then
      .ok ⟨r0.2, f.rows.filter (fun lr => lr.1 != 0)⟩
    else .error .keyErr

/-- Insert one labelled row into a label-sorted row list. -/
def orderedInsertRow (p : Nat × List Val) :
    List (Nat × List Val) → List (Nat × List Val)
  | [] => [p]
  | q :: rest =>
    if p.1 ≤ q.1 then p :: q :: rest else q :: orderedInsertRow p rest

/-- `df.sort_index(inplace=True)` (line 889): stable sort of the rows by
index label. -/
def sortIndexRows : List (Nat × List Val) → List (Nat × List Val)
  | [] => []
  | p :: rest => orderedInsertRow p (sortIndexRows rest)

/-- The tabular form a successful conversion returns: ordered column
names and row-major data, the index having been reset to `0..n-1`
(`reset_index(drop=True)`, line 890). -/
structure DFrame where
  cols : List Val
  rows : List (List Val)
deriving DecidableEq, Repr

/-- `table_to_pandas(table, header)` (data_elements.py lines 851-891):
build the rows (with the `KeyError` fallback), rectangularize, fill NA,
drop all-NA rows then all-NA columns, optionally take the first row as
the header, sort the index and reset it. -/
def tableToPandas (g : Grid) (header : Bool) : Except PyErr DFrame :=
  match buildRows g with
  | .error e => .error e
  | .ok data =>
    let pruned := dropCols (dropRows (rectFrame data))
    match (if header then applyHeader pruned else .ok pruned) with
    | .error e => .error e
    | .ok f => .ok ⟨f.cols, (sortIndexRows f.rows).map (fun lr => lr.2)⟩

/-! ### The tabular → wire direction (`TableElement.convert_pd_to_export`) -/

/-- One exported wire row: `columns = range(shape[1])` renames the column
labels to `0..m-1` (line 1008), `replace` sanitises the specials
(lines 1009-1011), `to_dict(orient="index")` keys the cells by those
integer positions, and each value is wrapped as `{"value": v}`
(lines 1012-1015). -/
def wireRowFrom (i : Nat) : List Val → WireRow
  | [] => []
  | v :: vs =>
    (Val.vInt (Int.ofNat i), CellV.obj (some (sanitize v))) :: wireRowFrom (i + 1) vs

/-- One exported sheet wrapper
`{name, rowCount, columnCount, data: {dataTable: grid}}`
(lines 1016-1025). -/
structure WireSheet where
  name : String
  rowCount : Nat
  columnCount : Nat
  dataTable : Grid
deriving DecidableEq, Repr

/-- The per-sheet body of `convert_pd_to_export` applied to a DataFrame
(lines 1001-1025): with `header` the index is shifted up, the column
names are inserted at label 0 and the frame re-sorted/re-indexed — i.e.
the name row is prepended; `rowCount`/`columnCount` are the shape of the
(possibly header-augmented) frame; then the grid is emitted. -/
def convertSheet (nm : String) (d : DFrame) (header : Bool) : WireSheet :=
  let allRows := if header then d.cols :: d.rows else d.rows
  ⟨nm, allRows.length, d.cols.length, allRows.map (wireRowFrom 0)⟩

/-- A value of `self.table[sheet]`: a converted DataFrame, a raw wire
sheet dict (whose only relevant content is `["data"]["dataTable"]`), or
a malformed non-dict value such as a string. -/
inductive SheetVal where
  | df (d : DFrame)
  | wire (g : Grid)
  | junkStr (s : String)
deriving DecidableEq, Repr

/-- `self.table`: the ordered dict from sheet name to sheet value. -/
abbrev Table := List (String × SheetVal)

/-- `isinstance(element, pd.DataFrame)`. -/
def isDf : SheetVal → Bool
  | .df _ => true
  | _ => false

/-- `self.table[sheet]["data"]["dataTable"]` followed by
`table_to_pandas(..., header)` (lines 898-903) for one sheet: a string
sheet raises `TypeError` (string indices must be integers); a DataFrame
sheet would raise `KeyError` (`df["data"]` with no such column), but that
case is unreachable behind the any-DataFrame guard of `table_to_pd`. -/
def coerceSheet (header : Bool) : SheetVal → Except PyErr DFrame
  | .wire g => tableToPandas g header
  | .junkStr _ => .error .typeErr
  | .df _ => .error .keyErr

/-- The dict comprehension of `table_to_pd` (lines 898-903) over all
sheets, aborting at the first exception. -/
def coerceAll (header : Bool) : Table → Except PyErr (List (String × DFrame))
  | [] => .ok []
  | (nm, sv) :: rest =>
    match coerceSheet header sv with
    | .error e => .error e
    | .ok d =>
      match coerceAll header rest with
      | .error e => .error e
      | .ok ds => .ok ((nm, d) :: ds)

/-- `TableElement.table_to_pd(header, in_place)` (lines 819-905).  The
result pairs the value of `self.table` *after* the call with the value
the method returns.  If any sheet is already a DataFrame the method
prints and returns `None`.  Otherwise the comprehension result is bound
to the *local* name `table` (lines 898-903), so `self.table` is left
unchanged in every case; only with `in_place=False` is the converted
dict returned to the caller. -/
def tableToPd (t : Table) (header : Bool) (inPlace : Bool) :
    Except PyErr (Table × Option (List (String × DFrame))) :=
  if t.any (fun s => isDf s.2) then
    .ok (t, none)
  else
    match coerceAll header t with
    | .error e => .error e
    | .ok ds => .ok (t, if inPlace then none else some ds)

/-- The export loop body of `convert_pd_to_export` applied to one sheet
value (lines 1000-1025).  On a DataFrame it emits the wire sheet; on a
wire dict, reading `.index` / calling `.sort_index` raises
`AttributeError`; on a string with `header=True`, `str.index` is a bound
method and `method + 1` raises `TypeError`, while with `header=False`
`.sort_index` raises `AttributeError`. -/
def exportSheet (header : Bool) (nm : String) : SheetVal → Except PyErr WireSheet
  | .df d => .ok (convertSheet nm d header)
  | .wire _ => .error .attributeErr
  | .junkStr _ => if header then .error .typeErr else .error .attributeErr

/-- The `for sheet in tmp_table.keys()` export loop, aborting at the
first exception. -/
def exportLoop (header : Bool) : Table → Except PyErr (List (String × WireSheet))
  | [] => .ok []
  | (nm, sv) :: rest =>
    match exportSheet header nm sv with
    | .error e => .error e
    | .ok w =>
      match exportLoop header rest with
      | .error e => .error e
      | .ok ws => .ok ((nm, w) :: ws)

/-- The exported document `{"sheets": {...}}` (line 999). -/
structure WireDoc where
  sheets : List (String × WireSheet)
deriving DecidableEq, Repr

/-- The exception kinds caught by `convert_pd_to_export`'s
`except (TypeError, ValueError, KeyError, AttributeError)` (line 995). -/
def caughtInConvert : PyErr → Bool
  | .typeErr => true
  | .valueErr => true
  | .keyErr => true
  | .attributeErr => true
  | .indexErr => false

/-- `TableElement.convert_pd_to_export(header)` (lines 954-1026).
`Except.ok none` models the Python `return None`; `Except.error e` models
an uncaught exception propagating out of the method.  When the sheets are
not all DataFrames, `self.table_to_pd()` is attempted (with *default*
`header=True`, `in_place=True`); only the four listed exception kinds are
caught and turned into `return None`.  Because `table_to_pd` never
mutates `self.table`, a *successful* coercion attempt still leaves
non-DataFrame sheets behind, and the export loop then raises. -/
def convertPdToExport (t : Table) (header : Bool) : Except PyErr (Option WireDoc) :=
  if t.all (fun s => isDf s.2) then
    match exportLoop header t with
    | .error e => .error e
    | .ok ws => .ok (some ⟨ws⟩)
  else
    match tableToPd t true true with
    | .error e => if caughtInConvert e then .ok none else .error e
    | .ok _ =>
      match exportLoop header t with
      | .error e => .error e
      | .ok ws => .ok (some ⟨ws⟩)

/-! ### Elements, responses and `_handle_response` -/

/-- HTTP methods used by the element operations. -/
inductive Method where
  | post
  | put
deriving DecidableEq, Repr

/-- The parts of a `requests.Response` the modelled code reads: the
transport status code and the `"id"` field of the JSON body. -/
structure Response where
  status_code : Nat
  json_id : String
deriving DecidableEq, Repr

/-- `response == 200` / `response == 201` in `_handle_response`
(lines 1121, 1124) compares the `requests.Response` *object* with an
`int`.  `requests.Response` defines no `__eq__`, and `int.__eq__` returns
`NotImplemented` for it, so Python falls back to identity comparison of
values of different types: the result is always `False`. -/
def responseEqInt (_r : Response) (_n : Nat) : Bool := false

/-- `response_text` as built by `_handle_response`: the success branches
assign a *tuple* `(element.type, message)` (lines 1122, 1125), the
failure branches an f-string (lines 1129-1137); it starts as `""`. -/
inductive RText where
  | tup (a b : String)
  | txt (s : String)
deriving DecidableEq, Repr

/-- The failure message for a POST (lines 1129-1132). -/
def failPost (etype : String) (r : Response) : RText :=
  .txt (etype ++ " could not be written to Labfolder. Status code: "
        ++ toString r.status_code)

/-- The failure message for a PUT (lines 1133-1137). -/
def failPut (etype : String) (r : Response) : RText :=
  .txt (etype ++ " could not be updated on Labfolder. Status code: "
        ++ toString r.status_code)

/-- `_handle_response(element, response, ...)` (lines 1105-1143), given
the element's `type` attribute, the response, and the method of the
request that produced it.  Returns the `status` flag (used by callers
passing `return_status=True`) together with the printed `response_text`. -/
def handleResponse (etype : String) (r : Response) (m : Method) : Bool × RText :=
  if responseEqInt r 200 && (m == Method.put) then
    (true, .tup etype "updated on Labfolder.")
  else if responseEqInt r 201 && (m == Method.post) then
    (true, .tup etype "written to Labfolder.")
  else
    match m with
    | .post => (false, failPost etype r)
    | .put => (false, failPut etype r)

/-- The fields of a `DataElement` (lines 35-46). -/
structure DataSt where
  type : String
  element_id : String
  description : String
deriving DecidableEq, Repr

/-- `DataElement.write_to_labfolder` (lines 78-107), given the response
of the POST: on empty `entry_id` the method reports and returns; else
`element_id` is assigned from the response body only when the status flag
is true. -/
def dataWriteToLabfolder (st : DataSt) (entry_id : String) (r : Response) :
    DataSt × RText :=
  if entry_id = "" then (st, .txt "No entry_id provided.")
  else
    match handleResponse st.type r Method.post with
    | (true, t) => (⟨st.type, r.json_id, st.description⟩, t)
    | (false, t) => (st, t)

/-- `DataElement.update_on_labfolder` (lines 109-134): never assigns any
field; aborts early on empty description. -/
def dataUpdateOnLabfolder (st : DataSt) (r : Response) : DataSt × RText :=
  if st.description = "" then (st, .txt "No data to write.")
  else (st, (handleResponse st.type r Method.put).2)

/-- The fields of a `TextElement` (lines 330-342); note it carries both
`element_id` and a separate `id` attribute, and `write_to_labfolder`
assigns the latter. -/
structure TextSt where
  type : String
  element_id : String
  content : String
  id : String
deriving DecidableEq, Repr

/-- `TextElement.write_to_labfolder` (lines 377-408). -/
def textWriteToLabfolder (st : TextSt) (entry_id : String) (r : Response) :
    TextSt × RText :=
  if entry_id = "" then (st, .txt "No entry_id provided.")
  else
    match handleResponse st.type r Method.post with
    | (true, t) => (⟨st.type, st.element_id, st.content, r.json_id⟩, t)
    | (false, t) => (st, t)

/-- `TextElement.update_on_labfolder` (lines 410-437). -/
def textUpdateOnLabfolder (st : TextSt) (r : Response) : TextSt × RText :=
  if st.content = "" then (st, .txt "No text to write.")
  else (st, (handleResponse st.type r Method.put).2)

/-- The fields of a `DataElementGroup` (lines 466-482); the children are
kept abstractly by identifier, since no modelled claim inspects the
serialized child payload. -/
structure GroupSt where
  type : String
  title : String
  element_id : String
  children : List String
deriving DecidableEq, Repr

/-- `DataElementGroup.write_to_labfolder` (lines 508-542): it calls
`_handle_response` *without* `return_status` and never assigns
`element_id`, whatever the response was. -/
def groupWriteToLabfolder (st : GroupSt) (entry_id : String) (r : Response) :
    GroupSt × RText :=
  if entry_id = "" then (st, .txt "No entry_id provided.")
  else (st, (handleResponse st.type r Method.post).2)

/-- `DataElementGroup.update_on_labfolder` (lines 544-578). -/
def groupUpdateOnLabfolder (st : GroupSt) (r : Response) : GroupSt × RText :=
  if st.element_id = "" then (st, .txt "No data element group ID provided.")
  else (st, (handleResponse st.type r Method.put).2)

/-- The fields of a `TableElement` (lines 631-678). -/
structure TableSt where
  type : String
  element_id : String
  entry_id : String
  table : Option Table
  creation_date : String
  owner_id : String
  title : String
deriving DecidableEq, Repr

/-- `TableElement.write_to_labfolder` (lines 723-776): resolve the entry
id, check the table, convert it (a conversion exception propagates, a
`None` conversion aborts with a report), then POST and assign
`element_id` only when the status flag is true. -/
def tableWriteToLabfolder (st : TableSt) (entry_id : String) (header : Bool)
    (r : Response) : Except PyErr (TableSt × RText) :=
  let eid := if entry_id = "" then st.entry_id else entry_id
  if eid = "" then .ok (st, .txt "No entry_id provided.")
  else
    match st.table with
    | none => .ok (st, .txt "No table to write.")
    | some t =>
      match convertPdToExport t header with
      | .error e => .error e
      | .ok none => .ok (st, .txt "Could not convert table to export format.")
      | .ok (some _) =>
        match handleResponse st.type r Method.post with
        | (true, tx) =>
          .ok (⟨st.type, r.json_id, st.entry_id, st.table,
                st.creation_date, st.owner_id, st.title⟩, tx)
        | (false, tx) => .ok (st, tx)

/-- `TableElement.update_on_labfolder` (lines 778-817): never assigns any
field. -/
def tableUpdateOnLabfolder (st : TableSt) (header : Bool) (r : Response) :
    Except PyErr (TableSt × RText) :=
  match st.table with
  | none => .ok (st, .txt "No table to write.")
  | some t =>
    match convertPdToExport t header with
    | .error e => .error e
    | .ok none => .ok (st, .txt "Could not convert table to export format.")
    | .ok (some _) => .ok (st, (handleResponse st.type r Method.put).2)

/-- The JSON document returned by `GET elements/table/{id}`
(lines 709-718): the fields `load_table` copies into the object, with
`table["content"]["sheets"]` as raw wire sheet values. -/
structure FetchedTable where
  entry_id : String
  creation_date : String
  owner_id : String
  title : String
  sheets : Table
deriving DecidableEq, Repr

/-- `TableElement.load_table(user_info, to_pd, header)` (lines 680-721)
after a successful fetch: copy the metadata, set `self.table` to the wire
sheets, and, when `to_pd`, call `table_to_pd(header=header)` — whose
result, per `tableToPd`, leaves `self.table` as it was. -/
def loadTable (st : TableSt) (fetched : FetchedTable) (toPd header : Bool) :
    Except PyErr TableSt :=
  if st.element_id = "" then .ok st
  else
    let st1 : TableSt := ⟨st.type, st.element_id, fetched.entry_id,
      some fetched.sheets, fetched.creation_date, fetched.owner_id, fetched.title⟩
    if toPd then
      match tableToPd fetched.sheets header true with
      | .error e => .error e
      | .ok p => .ok ⟨st1.type, st1.element_id, st1.entry_id, some p.1,
                      st1.creation_date, st1.owner_id, st1.title⟩
    else .ok st1

/-! ### `parse_data_element` (lines 1146-1211) -/

/-- A wire element record as consumed by `parse_data_element`: the string
fields the parser reads via `element.get(key, default)` (a missing key is
represented by its default `""`), plus the nested `children` records of a
group.  `oct` abbreviates `original_file_content_type`. -/
inductive ElemDict where
  | mk (element_type id title content description entry_id oct : String)
       (children : List ElemDict)

/-- `element.get("element_type", "")`. -/
def ElemDict.etype : ElemDict → String
  | .mk t _ _ _ _ _ _ _ => t

/-- `element.get("title", "")`. -/
def ElemDict.titleOf : ElemDict → String
  | .mk _ _ ttl _ _ _ _ _ => ttl

/-- `element.get("children", [])`. -/
def ElemDict.childrenOf : ElemDict → List ElemDict
  | .mk _ _ _ _ _ _ _ ch => ch

/-- The variant objects `parse_data_element` constructs. -/
inductive ParsedElement where
  | group (title : String) (children : List ParsedElement)
  | file (element_id : String)
  | image (element_id title oct : String)
  | text (element_id content : String)
  | descriptive (title element_id description : String)
  | data (element_id description : String)
  | table (element_id entry_id : String)

mutual

/-- `parse_data_element(element, user_info)` (lines 1146-1211): dispatch
on the `element_type` tag; an unrecognized tag leaves `return_element` as
`None` and prints an `Unknown element type` diagnostic.  The second
component counts those diagnostics (recursively, for group children).
Network side effects of the constructed objects (the `TableElement`
constructor fetching its content) are outside this model. -/
def parseDataElement : ElemDict → Option ParsedElement × Nat
  | .mk t i ttl c d eid oct ch =>
    if t = "DATA_ELEMENT_GROUP" then
      ((some (.group ttl (parseChildren ch).1)), (parseChildren ch).2)
    else if t = "FILE" then (some (.file i), 0)
    else if t = "IMAGE" then (some (.image i ttl oct), 0)
    else if t = "TEXT" then (some (.text i c), 0)
    else if t = "DESCRIPTIVE_DATA" then (some (.descriptive ttl i d), 0)
    else if t = "DATA" then (some (.data i d), 0)
    else if t = "TABLE" then (some (.table i eid), 0)
    else (none, 1)

/-- The loop over `element.get("children", [])` (lines 1174-1177): parse
each child and `add_child` it only when the result is not `None`. -/
def parseChildren : List ElemDict → List ParsedElement × Nat
  | [] => ([], 0)
  | c :: cs =>
    match parseDataElement c, parseChildren cs with
    | (some p, n1), (ps, n2) => (p :: ps, n1 + n2)
    | (none, n1), (ps, n2) => (ps, n1 + n2)

end

/-- `Entry.get_entry`'s list comprehension over the fetched records
(entries.py lines 73-76): unknown records stay as `None` entries, the
others become their variant objects. -/
def parseBatch (es : List ElemDict) : List (Option ParsedElement) :=
  es.map (fun e => (parseDataElement e).1)

/-- The element-type tags `parse_data_element` recognizes. -/
def recognizedTag (t : String) : Bool :=
  t == "DATA_ELEMENT_GROUP" || t == "FILE" || t == "IMAGE" || t == "TEXT" ||
  t == "DESCRIPTIVE_DATA" || t == "DATA" || t == "TABLE"

/-- The tag a constructed variant object corresponds to. -/
def tagOf : ParsedElement → String
  | .group _ _ => "DATA_ELEMENT_GROUP"
  | .file _ => "FILE"
  | .image _ _ _ => "IMAGE"
  | .text _ _ => "TEXT"
  | .descriptive _ _ _ => "DESCRIPTIVE_DATA"
  | .data _ _ => "DATA"
  | .table _ _ => "TABLE"

/-! ### Generic list lemmas -/

theorem filter_eq_self_of_all {α : Type} (p : α → Bool) :
    ∀ l : List α, (∀ x ∈ l, p x = true) → l.filter p = l := by
  intro l
  induction l with
  | nil => intro _; rfl
  | cons a rest ih =>
    intro h
    have ha : p a = true := h a (List.mem_cons_self a rest)
    have ht := ih (fun x hx => h x (List.mem_cons_of_mem a hx))
    simp [List.filter_cons, ha, ht]

theorem map_congr_mem {α β : Type} (f g : α → β) :
    ∀ l : List α, (∀ x ∈ l, f x = g x) → l.map f = l.map g := by
  intro l
  induction l with
  | nil => intro _; rfl
  | cons a rest ih =>
    intro h
    simp only [List.map_cons]
    rw [h a (List.mem_cons_self a rest),
        ih (fun x hx => h x (List.mem_cons_of_mem a hx))]

theorem get?_some_of_lt {α : Type} :
    ∀ (l : List α) (j : Nat), j < l.length → ∃ a, l.get? j = some a ∧ a ∈ l := by
  intro l
  induction l with
  | nil => intro j hj; simp at hj
  | cons a rest ih =>
    intro j hj
    cases j with
    | zero => exact ⟨a, rfl, List.mem_cons_self a rest⟩
    | succ j =>
      have hj' : j < rest.length := Nat.lt_of_succ_lt_succ hj
      obtain ⟨b, hb, hbm⟩ := ih j hj'
      exact ⟨b, hb, List.mem_cons_of_mem a hbm⟩

theorem mem_maskFilter {α : Type} :
    ∀ (mask : List Bool) (l : List α) (x : α), x ∈ maskFilter mask l →
      ∃ j, mask.get? j = some true ∧ l.get? j = some x := by
  intro mask
  induction mask with
  | nil => intro l x h; simp [maskFilter] at h
  | cons b bs ih =>
    intro l x h
    cases l with
    | nil => simp [maskFilter] at h
    | cons a rest =>
      by_cases hb : b = true
      · subst hb
        simp only [maskFilter, if_pos rfl] at h
        rcases List.mem_cons.mp h with h1 | h2
        · exact ⟨0, rfl, by simp [h1]⟩
        · obtain ⟨j, hm, hl⟩ := ih rest x h2
          exact ⟨j + 1, by simpa using hm, by simpa using hl⟩
      · have hb' : b = false := by
          cases b
          · rfl
          · exact absurd rfl hb
        subst hb'
        simp [maskFilter] at h
        obtain ⟨j, hm, hl⟩ := ih rest x h
        exact ⟨j + 1, by simpa using hm, by simpa using hl⟩

theorem maskFilter_replicate_true {α : Type} :
    ∀ l : List α, maskFilter (List.replicate l.length true) l = l := by
  intro l
  induction l with
  | nil => rfl
  | cons a rest ih => simp [List.length_cons, List.replicate_succ, maskFilter, ih]

theorem map_const_true {α : Type} :
    ∀ l : List α, l.map (fun _ => true) = List.replicate l.length true := by
  intro l
  induction l with
  | nil => rfl
  | cons a rest ih => simp [List.length_cons, List.replicate_succ, ih]

/-! ### Lemmas about index labels (`labelFrom`, `sortIndexRows`) -/

theorem mem_labelFrom_snd :
    ∀ (l : List (List Val)) (i : Nat) (p : Nat × List Val),
      p ∈ labelFrom i l → p.2 ∈ l := by
  intro l
  induction l with
  | nil => intro i p h; simp [labelFrom] at h
  | cons r rs ih =>
    intro i p h
    rcases List.mem_cons.mp h with h1 | h2
    · subst h1; exact List.mem_cons_self r rs
    · exact List.mem_cons_of_mem r (ih (i + 1) p h2)

theorem labelFrom_ge :
    ∀ (l : List (List Val)) (i : Nat) (p : Nat × List Val),
      p ∈ labelFrom i l → i ≤ p.1 := by
  intro l
  induction l with
  | nil => intro i p h; simp [labelFrom] at h
  | cons r rs ih =>
    intro i p h
    rcases List.mem_cons.mp h with h1 | h2
    · subst h1; exact Nat.le_refl i
    · exact Nat.le_of_succ_le (ih (i + 1) p h2)

theorem pairwise_lt_labelFrom :
    ∀ (l : List (List Val)) (i : Nat),
      (labelFrom i l).Pairwise (fun a b => a.1 < b.1) := by
  intro l
  induction l with
  | nil => intro i; exact List.Pairwise.nil
  | cons r rs ih =>
    intro i
    refine List.Pairwise.cons ?_ (ih (i + 1))
    intro p hp
    exact Nat.lt_of_succ_le (labelFrom_ge rs (i + 1) p hp)

theorem labelFrom_map_snd :
    ∀ (l : List (List Val)) (i : Nat), (labelFrom i l).map (fun lr => lr.2) = l := by
  intro l
  induction l with
  | nil => intro i; rfl
  | cons r rs ih => intro i; simp [labelFrom, ih]

theorem sortIndexRows_of_pairwise :
    ∀ l : List (Nat × List Val),
      l.Pairwise (fun a b => a.1 ≤ b.1) → sortIndexRows l = l := by
  intro l
  induction l with
  | nil => intro _; rfl
  | cons p rest ih =>
    intro h
    have hrel := (List.pairwise_cons.mp h).1
    have htail := (List.pairwise_cons.mp h).2
    simp only [sortIndexRows, ih htail]
    cases rest with
    | nil => rfl
    | cons q qs =>
      have hq : p.1 ≤ q.1 := hrel q (List.mem_cons_self q qs)
      simp [orderedInsertRow, hq]

/-! ### Reading back an exported wire row -/

/-- The association list `buildRow` recovers from an exported wire row:
integer keys from `i` upwards paired with the sanitized cell values. -/
def assocSan (i : Nat) : List Val → List (Val × Val)
  | [] => []
  | v :: vs => (Val.vInt (Int.ofNat i), sanitize v) :: assocSan (i + 1) vs

/-- The integer column keys `i, i+1, ..., i+n-1` as `Val`s. -/
def intKeysFrom (i : Nat) : Nat → List Val
  | 0 => []
  | n + 1 => Val.vInt (Int.ofNat i) :: intKeysFrom (i + 1) n

theorem buildRowTry_wireRowFrom :
    ∀ (r : List Val) (i : Nat), buildRowTry (wireRowFrom i r) = .ok (assocSan i r) := by
  intro r
  induction r with
  | nil => intro i; rfl
  | cons v vs ih =>
    intro i
    simp [wireRowFrom, buildRowTry, cellGet, assocSan, ih (i + 1)]

theorem buildRow_wireRowFrom (r : List Val) (i : Nat) :
    buildRow (wireRowFrom i r) = .ok (assocSan i r) := by
  simp [buildRow, buildRowTry_wireRowFrom]

theorem buildRows_map_wireRowFrom :
    ∀ rs : List (List Val),
      buildRows (rs.map (wireRowFrom 0)) = .ok (rs.map (assocSan 0)) := by
  intro rs
  induction rs with
  | nil => rfl
  | cons r rest ih =>
    simp [buildRows, buildRow_wireRowFrom, ih]

theorem rowKeys_assocSan :
    ∀ (r : List Val) (i : Nat), rowKeys (assocSan i r) = intKeysFrom i r.length := by
  intro r
  induction r with
  | nil => intro i; rfl
  | cons v vs ih =>
    intro i
    have ih' := ih (i + 1)
    simp only [rowKeys] at ih' ⊢
    simp [assocSan, intKeysFrom, ih']

theorem length_intKeysFrom : ∀ (n i : Nat), (intKeysFrom i n).length = n := by
  intro n
  induction n with
  | zero => intro i; rfl
  | succ n ih => intro i; simp [intKeysFrom, ih (i + 1)]

theorem mem_intKeysFrom :
    ∀ (n i : Nat) (k : Val), k ∈ intKeysFrom i n →
      ∃ j, j < n ∧ k = Val.vInt (Int.ofNat (i + j)) := by
  intro n
  induction n with
  | zero => intro i k h; simp [intKeysFrom] at h
  | succ n ih =>
    intro i k h
    rcases List.mem_cons.mp h with h1 | h2
    · exact ⟨0, Nat.succ_pos n, by simpa using h1⟩
    · obtain ⟨j, hj, hk⟩ := ih (i + 1) k h2
      refine ⟨j + 1, Nat.succ_lt_succ hj, ?_⟩
      have harith : i + (j + 1) = i + 1 + j := by omega
      rw [hk, harith]

theorem nodup_intKeysFrom : ∀ (n i : Nat), (intKeysFrom i n).Nodup := by
  intro n
  induction n with
  | zero => intro i; exact List.nodup_nil
  | succ n ih =>
    intro i
    refine List.nodup_cons.mpr ⟨?_, ih (i + 1)⟩
    intro hmem
    obtain ⟨j, _, hk⟩ := mem_intKeysFrom n (i + 1) _ hmem
    have h1 : Int.ofNat i = Int.ofNat (i + 1 + j) := Val.vInt.inj hk
    have h2 : i = i + 1 + j := Int.ofNat.inj h1
    omega

theorem addKeys_subset_id :
    ∀ (r : List (Val × Val)) (acc : List Val),
      (∀ kv ∈ r, kv.1 ∈ acc) → addKeys acc r = acc := by
  intro r
  induction r with
  | nil => intro acc _; rfl
  | cons kv rest ih =>
    intro acc h
    have hk : kv.1 ∈ acc := h kv (List.mem_cons_self kv rest)
    simp only [addKeys, List.foldl_cons, if_pos hk]
    exact ih acc (fun x hx => h x (List.mem_cons_of_mem kv hx))

theorem addKeys_fresh :
    ∀ (r : List (Val × Val)) (acc : List Val),
      (rowKeys r).Nodup → (∀ k ∈ rowKeys r, k ∉ acc) →
      addKeys acc r = acc ++ rowKeys r := by
  intro r
  induction r with
  | nil => intro acc _ _; simp [addKeys, rowKeys]
  | cons kv rest ih =>
    intro acc hnd hfresh
    have hk : kv.1 ∉ acc := hfresh kv.1 (by simp [rowKeys])
    have hnd' : (rowKeys rest).Nodup := by
      simpa [rowKeys] using (List.nodup_cons.mp (by simpa [rowKeys] using hnd)).2
    have hhead : kv.1 ∉ rowKeys rest :=
      (List.nodup_cons.mp (by simpa [rowKeys] using hnd)).1
    have hfresh' : ∀ k ∈ rowKeys rest, k ∉ acc ++ [kv.1] := by
      intro k hkm
      simp only [List.mem_append, List.mem_singleton]
      push_neg
      constructor
      · exact hfresh k (by simp [rowKeys]; exact Or.inr (by simpa [rowKeys] using hkm))
      · intro hEq
        exact hhead (hEq ▸ hkm)
    simp only [addKeys, List.foldl_cons, if_neg hk]
    have := ih (acc ++ [kv.1]) hnd' hfresh'
    simp only [addKeys] at this
    rw [this]
    simp [rowKeys]

theorem foldl_addKeys_id :
    ∀ (rows : List (List (Val × Val))) (acc : List Val),
      (∀ row ∈ rows, addKeys acc row = acc) → rows.foldl addKeys acc = acc := by
  intro rows
  induction rows with
  | nil => intro acc _; rfl
  | cons r rest ih =>
    intro acc h
    simp only [List.foldl_cons, h r (List.mem_cons_self r rest)]
    exact ih acc (fun x hx => h x (List.mem_cons_of_mem r hx))

/-! ### Rectangularization of an exported grid -/

theorem lookupVal_cons_ne (k' : Val) (v : Val) (rest : List (Val × Val)) (key : Val)
    (h : k' ≠ key) : lookupVal ((k', v) :: rest) key = lookupVal rest key := by
  simp [lookupVal, if_neg h]

theorem rectRow_intKeys :
    ∀ (r : List Val) (i : Nat),
      (intKeysFrom i r.length).map (rectCell (assocSan i r)) =
        r.map (fun v => fillna (sanitize v)) := by
  intro r
  induction r with
  | nil => intro i; rfl
  | cons a as ih =>
    intro i
    simp only [List.length_cons, intKeysFrom, List.map_cons]
    have hhead : rectCell (assocSan i (a :: as)) (Val.vInt (Int.ofNat i))
        = fillna (sanitize a) := by
      simp [rectCell, assocSan, lookupVal]
    have hcongr : ∀ k ∈ intKeysFrom (i + 1) as.length,
        rectCell (assocSan i (a :: as)) k = rectCell (assocSan (i + 1) as) k := by
      intro k hk
      obtain ⟨j, _, hkEq⟩ := mem_intKeysFrom as.length (i + 1) k hk
      have hne : Val.vInt (Int.ofNat i) ≠ k := by
        rw [hkEq]
        intro hAbs
        have h1 := Val.vInt.inj hAbs
        have h2 := Int.ofNat.inj h1
        omega
      simp only [rectCell, assocSan, lookupVal_cons_ne _ _ _ _ hne]
    rw [hhead, map_congr_mem _ _ _ hcongr, ih (i + 1)]

/-- Values that are neither `None` nor an infinity round-trip through
export sanitization followed by reimport `fillna` unchanged (`NaN` maps
to `None` on the wire and back to `NaN`). -/
theorem fillna_sanitize_eq_self (v : Val) (h1 : v ≠ Val.vInf)
    (h2 : v ≠ Val.vNegInf) (h3 : v ≠ Val.vNone) : fillna (sanitize v) = v := by
  cases v with
  | vStr s => rfl
  | vInt n => rfl
  | vNone => exact absurd rfl h3
  | vNaN => rfl
  | vInf => exact absurd rfl h1
  | vNegInf => exact absurd rfl h2

/-- Column names that are proper scalars (a string or an integer). -/
def cleanName : Val → Bool
  | .vStr _ => true
  | .vInt _ => true
  | _ => false

theorem cleanName_fillna_sanitize (c : Val) (h : cleanName c = true) :
    fillna (sanitize c) = c := by
  cases c <;> first | rfl | simp [cleanName] at h

theorem cleanName_not_isNA (c : Val) (h : cleanName c = true) : c.isNA = false := by
  cases c <;> first | rfl | simp [cleanName] at h

theorem unionKeys_export (cols : List Val) (rows : List (List Val))
    (hrect : ∀ r ∈ rows, r.length = cols.length) :
    unionKeys ((cols :: rows).map (assocSan 0)) = intKeysFrom 0 cols.length := by
  have hfirst : addKeys [] (assocSan 0 cols) = intKeysFrom 0 cols.length := by
    have h := addKeys_fresh (assocSan 0 cols) []
      (by rw [rowKeys_assocSan]; exact nodup_intKeysFrom _ _)
      (by intro k _ hk; simp at hk)
    rw [h, rowKeys_assocSan]
    simp
  have hrest : ∀ row ∈ rows.map (assocSan 0),
      addKeys (intKeysFrom 0 cols.length) row = intKeysFrom 0 cols.length := by
    intro row hrow
    obtain ⟨r, hr, hEq⟩ := List.mem_map.mp hrow
    subst hEq
    refine addKeys_subset_id _ _ ?_
    intro kv hkv
    have hmem : kv.1 ∈ rowKeys (assocSan 0 r) := List.mem_map_of_mem _ hkv
    rw [rowKeys_assocSan, hrect r hr] at hmem
    exact hmem
  simp only [unionKeys, List.map_cons, List.foldl_cons, hfirst]
  exact foldl_addKeys_id _ _ hrest

theorem rectFrame_export (cols : List Val) (rows : List (List Val))
    (hrect : ∀ r ∈ rows, r.length = cols.length)
    (hlab : ∀ c ∈ cols, fillna (sanitize c) = c)
    (hcell : ∀ r ∈ rows, ∀ v ∈ r, fillna (sanitize v) = v) :
    rectFrame ((cols :: rows).map (assocSan 0)) =
      ⟨intKeysFrom 0 cols.length, labelFrom 0 (cols :: rows)⟩ := by
  have hU := unionKeys_export cols rows hrect
  have hrowId : ∀ r ∈ cols :: rows,
      rectRow (intKeysFrom 0 cols.length) (assocSan 0 r) = r := by
    intro r hr
    have hlen : r.length = cols.length := by
      rcases List.mem_cons.mp hr with h1 | h2
      · rw [h1]
      · exact hrect r h2
    have hid : ∀ v ∈ r, fillna (sanitize v) = v := by
      rcases List.mem_cons.mp hr with h1 | h2
      · intro v hv; exact hlab v (h1 ▸ hv)
      · intro v hv; exact hcell r h2 v hv
    calc rectRow (intKeysFrom 0 cols.length) (assocSan 0 r)
        = (intKeysFrom 0 r.length).map (rectCell (assocSan 0 r)) := by
          simp [rectRow, hlen]
      _ = r.map (fun v => fillna (sanitize v)) := rectRow_intKeys r 0
      _ = r.map (fun v => v) := map_congr_mem _ _ _ hid
      _ = r := List.map_id r
  have hrows : ((cols :: rows).map (assocSan 0)).map
      (rectRow (unionKeys ((cols :: rows).map (assocSan 0)))) = cols :: rows := by
    rw [hU, List.map_map]
    calc ((cols :: rows).map (rectRow (intKeysFrom 0 cols.length) ∘ assocSan 0))
        = (cols :: rows).map (fun r => r) := by
          refine map_congr_mem _ _ _ ?_
          intro r hr
          exact hrowId r hr
      _ = cols :: rows := List.map_id _
  rw [hU] at hrows
  simp only [rectFrame, hU, hrows]

/-! ### Pruning is the identity on fully-occupied frames -/

theorem dropRows_id (f : RawFrame) (h : ∀ p ∈ f.rows, rowNonNull p.2 = true) :
    dropRows f = f := by
  cases f with
  | mk cols rows =>
    simp only [dropRows]
    rw [filter_eq_self_of_all _ _ h]

theorem dropCols_id (f : RawFrame)
    (hlen : ∀ p ∈ f.rows, p.2.length = f.cols.length)
    (hmask : ∀ j, j < f.cols.length → colNonNull f.rows j = true) :
    dropCols f = f := by
  have hkeep : keepMask f = List.replicate f.cols.length true := by
    unfold keepMask
    rw [map_congr_mem _ (fun _ => true) _
      (fun j hj => hmask j (List.mem_range.mp hj)), map_const_true, List.length_range]
  have hcols : maskFilter (keepMask f) f.cols = f.cols := by
    rw [hkeep]
    exact maskFilter_replicate_true f.cols
  have hrows : f.rows.map (fun lr => (lr.1, maskFilter (keepMask f) lr.2)) = f.rows := by
    have hpt : ∀ lr ∈ f.rows,
        (lr.1, maskFilter (keepMask f) lr.2) = (fun q => q) lr := by
      intro lr hlr
      rw [hkeep, ← hlen lr hlr, maskFilter_replicate_true]
    rw [map_congr_mem _ _ _ hpt]
    simp
  cases f with
  | mk cols rows =>
    simp only [dropCols]
    rw [hcols, hrows]

theorem applyHeader_cons_zero (K : List Val) (cols : List Val)
    (rows : List (List Val)) :
    applyHeader ⟨K, (0, cols) :: labelFrom 1 rows⟩ = .ok ⟨cols, labelFrom 1 rows⟩ := by
  have hfil : ((0, cols) :: labelFrom 1 rows).filter (fun lr => lr.1 != 0)
      = labelFrom 1 rows := by
    rw [List.filter_cons]
    simp only [bne_self_eq_false, Bool.false_eq_true, if_false]
    refine filter_eq_self_of_all _ _ ?_
    intro p hp
    have h1 : 1 ≤ p.1 := labelFrom_ge rows 1 p hp
    simp only [bne_iff_ne, ne_eq]
    omega
  simp [applyHeader, hfil]

theorem sortIndexRows_labelFrom (l : List (List Val)) (i : Nat) :
    sortIndexRows (labelFrom i l) = labelFrom i l :=
  sortIndexRows_of_pairwise _
    ((pairwise_lt_labelFrom l i).imp (fun h => Nat.le_of_lt h))

/-- The exported grid of a well-behaved DataFrame converts back, with
`header=true`, to exactly that DataFrame. -/
theorem tableToPandas_export (cols : List Val) (rows : List (List Val))
    (hm : cols ≠ [])
    (hlab : ∀ c ∈ cols, cleanName c = true)
    (hrect : ∀ r ∈ rows, r.length = cols.length)
    (hcell : ∀ r ∈ rows, ∀ v ∈ r, v ≠ Val.vInf ∧ v ≠ Val.vNegInf ∧ v ≠ Val.vNone)
    (hrows : ∀ r ∈ rows, ∃ v ∈ r, v.isNA = false) :
    tableToPandas ((cols :: rows).map (wireRowFrom 0)) true = .ok ⟨cols, rows⟩ := by
  have hlab' : ∀ c ∈ cols, fillna (sanitize c) = c :=
    fun c hc => cleanName_fillna_sanitize c (hlab c hc)
  have hcell' : ∀ r ∈ rows, ∀ v ∈ r, fillna (sanitize v) = v := by
    intro r hr v hv
    obtain ⟨h1, h2, h3⟩ := hcell r hr v hv
    exact fillna_sanitize_eq_self v h1 h2 h3
  have hb : buildRows ((cols :: rows).map (wireRowFrom 0))
      = .ok ((cols :: rows).map (assocSan 0)) := buildRows_map_wireRowFrom _
  have hrf := rectFrame_export cols rows hrect hlab' hcell'
  have hDR : dropRows ⟨intKeysFrom 0 cols.length, labelFrom 0 (cols :: rows)⟩
      = ⟨intKeysFrom 0 cols.length, labelFrom 0 (cols :: rows)⟩ := by
    apply dropRows_id
    intro p hp
    have hmem := mem_labelFrom_snd _ _ p hp
    rcases List.mem_cons.mp hmem with h1 | h2
    · cases cols with
      | nil => exact absurd rfl hm
      | cons c0 cs =>
        have hc0 : c0.isNA = false :=
          cleanName_not_isNA c0 (hlab c0 (List.mem_cons_self c0 cs))
        rw [h1]
        simp [rowNonNull, hc0]
    · obtain ⟨v, hv, hvNA⟩ := hrows p.2 h2
      simp only [rowNonNull, List.any_eq_true]
      exact ⟨v, hv, by simp [hvNA]⟩
  have hDC : dropCols ⟨intKeysFrom 0 cols.length, labelFrom 0 (cols :: rows)⟩
      = ⟨intKeysFrom 0 cols.length, labelFrom 0 (cols :: rows)⟩ := by
    apply dropCols_id
    · intro p hp
      have hmem := mem_labelFrom_snd _ _ p hp
      rw [length_intKeysFrom]
      rcases List.mem_cons.mp hmem with h1 | h2
      · rw [h1]
      · exact hrect p.2 h2
    · intro j hj
      rw [length_intKeysFrom] at hj
      obtain ⟨c, hc, hcm⟩ := get?_some_of_lt cols j hj
      have hcNA : c.isNA = false := cleanName_not_isNA c (hlab c hcm)
      simp only [colNonNull, List.any_eq_true]
      refine ⟨(0, cols), ?_, ?_⟩
      · simp [labelFrom]
      · rw [List.get?_eq_getElem?] at hc
        simp [hc, hcNA]
  have hlab0 : labelFrom 0 (cols :: rows) = (0, cols) :: labelFrom 1 rows := rfl
  simp only [tableToPandas, hb, hrf, hDR, hDC]
  rw [hlab0]
  simp [applyHeader_cons_zero, sortIndexRows_labelFrom, labelFrom_map_snd]

/-! ### Exception behaviour of the row builder -/

theorem buildRowTry_error_eq :
    ∀ (r : WireRow) (e : PyErr), buildRowTry r = .error e → e = .attributeErr := by
  intro r
  induction r with
  | nil => intro e h; simp [buildRowTry] at h
  | cons kc rest ih =>
    intro e h
    obtain ⟨k, c⟩ := kc
    cases c with
    | raw v =>
      simp only [buildRowTry, cellGet, Except.error.injEq] at h
      exact h.symm
    | obj v? =>
      have hw : ∃ w, cellGet (.obj v?) = .ok w := by
        cases v? with
        | some v => exact ⟨v, rfl⟩
        | none => exact ⟨.vNone, rfl⟩
      obtain ⟨w, hwEq⟩ := hw
      simp only [buildRowTry, hwEq] at h
      cases hrest : buildRowTry rest with
      | error e2 =>
        rw [hrest] at h
        simp only [Except.error.injEq] at h
        rw [← h]
        exact ih e2 hrest
      | ok vs =>
        rw [hrest] at h
        simp at h

theorem buildRow_error_eq (r : WireRow) (e : PyErr) (h : buildRow r = .error e) :
    e = .attributeErr := by
  unfold buildRow at h
  cases ht : buildRowTry r with
  | error e2 =>
    rw [ht] at h
    have he2 := buildRowTry_error_eq r e2 ht
    subst he2
    simp only [Except.error.injEq] at h
    exact h.symm
  | ok vs =>
    rw [ht] at h
    simp at h

theorem buildRowTry_raw :
    ∀ (r : WireRow) (k v : Val), (k, CellV.raw v) ∈ r →
      buildRowTry r = .error .attributeErr := by
  intro r
  induction r with
  | nil => intro k v h; simp at h
  | cons kc rest ih =>
    intro k v h
    obtain ⟨k', c'⟩ := kc
    cases c' with
    | raw w => rfl
    | obj w? =>
      rcases List.mem_cons.mp h with h1 | h2
      · exact absurd h1 (by simp)
      · have ht := ih k v h2
        cases w? with
        | some w => simp [buildRowTry, cellGet, ht]
        | none => simp [buildRowTry, cellGet, ht]

theorem buildRow_raw (r : WireRow) (k v : Val) (h : (k, CellV.raw v) ∈ r) :
    buildRow r = .error .attributeErr := by
  simp [buildRow, buildRowTry_raw r k v h]

theorem buildRows_raw :
    ∀ (g : Grid) (r : WireRow) (k v : Val), r ∈ g → (k, CellV.raw v) ∈ r →
      buildRows g = .error .attributeErr := by
  intro g
  induction g with
  | nil => intro r k v hr _; simp at hr
  | cons r0 rest ih =>
    intro r k v hr hc
    rcases List.mem_cons.mp hr with h1 | h2
    · subst h1
      simp [buildRows, buildRow_raw r k v hc]
    · cases hb0 : buildRow r0 with
      | error e =>
        have he := buildRow_error_eq r0 e hb0
        subst he
        simp [buildRows, hb0]
      | ok d =>
        simp [buildRows, hb0, ih r k v h2 hc]

/-! ### Cell positions in an exported grid -/

theorem get?_wireRowFrom :
    ∀ (r : List Val) (i j : Nat),
      (wireRowFrom i r).get? j
        = (r.get? j).map
            (fun v => (Val.vInt (Int.ofNat (i + j)), CellV.obj (some (sanitize v)))) := by
  intro r
  induction r with
  | nil => intro i j; simp [wireRowFrom]
  | cons a as ih =>
    intro i j
    cases j with
    | zero => simp [wireRowFrom]
    | succ j =>
      have harith : i + (j + 1) = i + 1 + j := by omega
      simp only [wireRowFrom, List.get?_cons_succ, harith]
      exact ih (i + 1) j

/-! ### Index labels survive the pruning stages in ascending order -/

theorem pairwise_pruned (data : List (List (Val × Val))) :
    ((dropCols (dropRows (rectFrame data))).rows).Pairwise (fun a b => a.1 < b.1) := by
  have h0 : ((rectFrame data).rows).Pairwise (fun a b => a.1 < b.1) :=
    pairwise_lt_labelFrom _ 0
  have h1 : ((dropRows (rectFrame data)).rows).Pairwise (fun a b => a.1 < b.1) :=
    List.Pairwise.sublist (List.filter_sublist _) h0
  show (((dropRows (rectFrame data)).rows).map
      (fun lr => (lr.1, maskFilter (keepMask (dropRows (rectFrame data))) lr.2))).Pairwise
      (fun a b => a.1 < b.1)
  exact (List.pairwise_map).mpr (h1.imp (fun h => h))

/-! ### Concrete inputs used by the claim theorems -/

/-- A one-cell wire grid `{0: {"A": {"value": 1}}}`. -/
def exGrid2 : Grid := [[(Val.vStr "A", CellV.obj (some (Val.vInt 1)))]]

/-- A one-sheet wire table as fetched by `load_table`. -/
def exSheets2 : Table := [("sheet1", SheetVal.wire exGrid2)]

/-- The wire grid of spec §8 "Header extraction":
`{0: {A: {value: "x"}, B: {value: "y"}}, 1: {A: {value: 1}, B: {value: 2}}}`. -/
def exGrid6 : Grid :=
  [[(Val.vStr "A", CellV.obj (some (Val.vStr "x"))),
    (Val.vStr "B", CellV.obj (some (Val.vStr "y")))],
   [(Val.vStr "A", CellV.obj (some (Val.vInt 1))),
    (Val.vStr "B", CellV.obj (some (Val.vInt 2)))]]

/-- The rows `buildRows` recovers from `exGrid6`. -/
def exData6 : List (List (Val × Val)) :=
  [[(Val.vStr "A", Val.vStr "x"), (Val.vStr "B", Val.vStr "y")],
   [(Val.vStr "A", Val.vInt 1), (Val.vStr "B", Val.vInt 2)]]

/-- `exGrid6` preceded by an all-null row: pruning drops the row with
index label 0, after which `df.drop(0)` cannot find label 0. -/
def exGrid6bad : Grid :=
  [[(Val.vStr "A", CellV.obj none), (Val.vStr "B", CellV.obj none)],
   [(Val.vStr "A", CellV.obj (some (Val.vStr "x"))),
    (Val.vStr "B", CellV.obj (some (Val.vStr "y")))],
   [(Val.vStr "A", CellV.obj (some (Val.vInt 1))),
    (Val.vStr "B", CellV.obj (some (Val.vInt 2)))]]

/-- A grid whose first row holds a malformed (non-dict) column entry and
whose second row is well-formed. -/
def exGrid4 : Grid :=
  [[(Val.vStr "A", CellV.raw (Val.vStr "oops"))],
   [(Val.vStr "A", CellV.obj (some (Val.vInt 5)))]]

/-- A well-formed cell next to a malformed one inside the same row. -/
def exGrid4w : Grid :=
  [[(Val.vStr "A", CellV.obj (some (Val.vInt 7))), (Val.vStr "B", CellV.raw Val.vNone)]]

/-- A wire sheet whose only cell is null: every row and column is pruned,
so the `header` step's `df.iloc[0]` raises `IndexError`. -/
def exGridNull : Grid := [[(Val.vInt 0, CellV.obj (some Val.vNone))]]

/-- The 3×3 grid of spec §8 "Pruning": columns `A`, `B` carry data, column
`C` is null in every row. -/
def exGrid7 : Grid :=
  [[(Val.vStr "A", CellV.obj (some (Val.vStr "x"))),
    (Val.vStr "B", CellV.obj (some (Val.vStr "y"))),
    (Val.vStr "C", CellV.obj (some Val.vNone))],
   [(Val.vStr "A", CellV.obj (some (Val.vInt 1))),
    (Val.vStr "B", CellV.obj (some (Val.vInt 2))),
    (Val.vStr "C", CellV.obj none)],
   [(Val.vStr "A", CellV.obj (some (Val.vInt 3))),
    (Val.vStr "B", CellV.obj (some (Val.vInt 4))),
    (Val.vStr "C", CellV.obj (some Val.vNone))]]

/-- The rows `buildRows` recovers from `exGrid7`. -/
def exData7 : List (List (Val × Val)) :=
  [[(Val.vStr "A", Val.vStr "x"), (Val.vStr "B", Val.vStr "y"), (Val.vStr "C", Val.vNone)],
   [(Val.vStr "A", Val.vInt 1), (Val.vStr "B", Val.vInt 2), (Val.vStr "C", Val.vNone)],
   [(Val.vStr "A", Val.vInt 3), (Val.vStr "B", Val.vInt 4), (Val.vStr "C", Val.vNone)]]

/-- The tabular form of `exGrid7` with `header=true`. -/
def exDf7 : DFrame :=
  ⟨[Val.vStr "x", Val.vStr "y"], [[Val.vInt 1, Val.vInt 2], [Val.vInt 3, Val.vInt 4]]⟩

/-- A 1×2 frame with an infinite cell: rectangular, no fully-empty row or
column (`inf` is not NA), yet it does not round-trip. -/
def exDfInf : DFrame := ⟨[Val.vStr "a", Val.vStr "b"], [[Val.vInf, Val.vInt 1]]⟩

/-- A 2×2 frame with string/integer names, a NaN cell and mixed values:
it satisfies the amended round-trip hypotheses. -/
def exDfGood : DFrame :=
  ⟨[Val.vStr "a", Val.vStr "b"],
   [[Val.vInt 1, Val.vNaN], [Val.vStr "z", Val.vInt 2]]⟩

/-! ### Claim C1 -/

/-- C1: the claim states that for each create operation (`DataElement`,
`TextElement`, `TableElement`, `DataElementGroup`), an HTTP 201 response
to `write_to_labfolder` makes the object capture the id returned in the
response body.  The code does not do this: `_handle_response` compares
the `requests.Response` object itself with the integer 201
(`response == 201`, line 1124), which is always `False` because
`requests.Response` defines no `__eq__`; the status flag is therefore
`False` and the identifier is never assigned (and
`DataElementGroup.write_to_labfolder` never consults the status at all),
even though the methods' own docstrings promise the assignment.  This
theorem evaluates all four create operations at a 201 response carrying
id `"newid"` and shows each object keeps its empty identifier while the
failure message is printed. -/
theorem c1_create_ignores_201_id :
    dataWriteToLabfolder ⟨"DATA", "", "descr"⟩ "e1" ⟨201, "newid"⟩
      = (⟨"DATA", "", "descr"⟩, failPost "DATA" ⟨201, "newid"⟩)
  ∧ textWriteToLabfolder ⟨"TEXT", "", "hello", ""⟩ "e1" ⟨201, "newid"⟩
      = (⟨"TEXT", "", "hello", ""⟩, failPost "TEXT" ⟨201, "newid"⟩)
  ∧ groupWriteToLabfolder ⟨"DATA_ELEMENT_GROUP", "t", "", []⟩ "e1" ⟨201, "newid"⟩
      = (⟨"DATA_ELEMENT_GROUP", "t", "", []⟩,
         failPost "DATA_ELEMENT_GROUP" ⟨201, "newid"⟩)
  ∧ tableWriteToLabfolder
      ⟨"TABLE", "", "e1", some [("s", SheetVal.df ⟨[Val.vStr "a"], [[Val.vInt 1]]⟩)],
       "", "", ""⟩ "" true ⟨201, "newid"⟩
      = .ok (⟨"TABLE", "", "e1",
          some [("s", SheetVal.df ⟨[Val.vStr "a"], [[Val.vInt 1]]⟩)], "", "", ""⟩,
          failPost "TABLE" ⟨201, "newid"⟩) :=
  ⟨rfl, rfl, rfl, rfl⟩

/-! ### Claim C2 -/

/-- C2: the claim states that after `load_table(..., to_pd=True)` the
`table` attribute holds one DataFrame per sheet, i.e. that
`table_to_pd(header, in_place=True)` replaces each sheet's wire grid in
`self.table` by its tabular form.  The code does not: the converted dict
is bound to the *local* name `table` (lines 898-903) and discarded, so
`self.table` still holds the raw wire dicts.  This theorem evaluates the
fetch of a one-sheet document and the in-place conversion, showing
`self.table` unchanged, while the `in_place=False` variant (whose result
the in-place path throws away) does produce the DataFrame — which is not
what the attribute ends up holding. -/
theorem c2_table_to_pd_in_place_no_effect :
    loadTable ⟨"TABLE", "tid", "", none, "", "", ""⟩
        ⟨"e9", "cd", "oid", "ttl", exSheets2⟩ true true
      = .ok ⟨"TABLE", "tid", "e9", some exSheets2, "cd", "oid", "ttl"⟩
  ∧ tableToPd exSheets2 true true = .ok (exSheets2, none)
  ∧ tableToPd exSheets2 true false
      = .ok (exSheets2, some [("sheet1", ⟨[Val.vInt 1], []⟩)])
  ∧ SheetVal.wire exGrid2 ≠ SheetVal.df ⟨[Val.vInt 1], []⟩ :=
  ⟨rfl, rfl, rfl, by decide⟩

/-! ### Claim C3 -/

/-- C3 counterexample: `exDfInf` is rectangular, has no fully-empty row
and no fully-empty column (an infinity is not a null), and its column
names are strings, yet tabular→wire→tabular with `header=true` returns
`NaN` where the original held `+inf` — the original content is not
reproduced, and the discrepancy is not a column-name type coercion. -/
theorem c3_roundtrip_counterexample :
    (∀ r ∈ exDfInf.rows, ∃ v ∈ r, v.isNA = false)
  ∧ (∀ j ∈ List.range exDfInf.cols.length,
      ∃ r ∈ exDfInf.rows, ∃ v, r.get? j = some v ∧ v.isNA = false)
  ∧ (∀ r ∈ exDfInf.rows, r.length = exDfInf.cols.length)
  ∧ tableToPandas (convertSheet "s" exDfInf true).dataTable true
      = .ok ⟨[Val.vStr "a", Val.vStr "b"], [[Val.vNaN, Val.vInt 1]]⟩
  ∧ tableToPandas (convertSheet "s" exDfInf true).dataTable true
      ≠ .ok exDfInf := by
  refine ⟨by decide, by decide, by decide, rfl, ?_⟩
  intro h
  rw [show tableToPandas (convertSheet "s" exDfInf true).dataTable true
      = .ok ⟨[Val.vStr "a", Val.vStr "b"], [[Val.vNaN, Val.vInt 1]]⟩ from rfl] at h
  exact absurd (Except.ok.inj h) (by decide)

/-- C3 (amended): for every rectangular DataFrame with at least one
column, whose column names are string or integer scalars, whose cells
contain no Python `None` and no ±infinity (NaN cells are allowed), and
which has no fully-empty rows and no fully-empty columns, exporting with
`convert_pd_to_export(header=True)` and converting the resulting sheet
grid back with `table_to_pandas(header=True)` reproduces the original
frame exactly.  (In this untyped value model the original claim's
allowance "column names coerced to the scalar type the header row stores
them as" is the identity; the counterexample forces the new exclusion of
infinite cells, which are sanitized to null on export and come back as
NaN.) -/
theorem c3_roundtrip_amended (nm : String) (d : DFrame)
    (hm : d.cols ≠ [])
    (hlab : ∀ c ∈ d.cols, cleanName c = true)
    (hrect : ∀ r ∈ d.rows, r.length = d.cols.length)
    (hcell : ∀ r ∈ d.rows, ∀ v ∈ r, v ≠ Val.vInf ∧ v ≠ Val.vNegInf ∧ v ≠ Val.vNone)
    (hrow : ∀ r ∈ d.rows, ∃ v ∈ r, v.isNA = false)
    (hcol : ∀ j ∈ List.range d.cols.length,
      ∃ r ∈ d.rows, ∃ v, r.get? j = some v ∧ v.isNA = false) :
    convertPdToExport [(nm, SheetVal.df d)] true
        = .ok (some ⟨[(nm, convertSheet nm d true)]⟩)
  ∧ tableToPandas (convertSheet nm d true).dataTable true = .ok d := by
  constructor
  · simp [convertPdToExport, isDf, exportLoop, exportSheet]
  · have hmain := tableToPandas_export d.cols d.rows hm hlab hrect hcell hrow
    have hgrid : (convertSheet nm d true).dataTable
        = (d.cols :: d.rows).map (wireRowFrom 0) := rfl
    rw [hgrid, hmain]

/-- C3 witness: the amended round trip applied to the concrete 2×2 frame
`exDfGood` (string names, a NaN cell, mixed string/integer data). -/
theorem c3_roundtrip_amended_witness :
    convertPdToExport [("s", SheetVal.df exDfGood)] true
        = .ok (some ⟨[("s", convertSheet "s" exDfGood true)]⟩)
  ∧ tableToPandas (convertSheet "s" exDfGood true).dataTable true = .ok exDfGood :=
  c3_roundtrip_amended "s" exDfGood (by decide) (by decide) (by decide)
    (by decide) (by decide) (by decide)

/-! ### Claim C4 -/

/-- C4 counterexample: `exGrid4`'s first row holds a malformed (non-dict)
column entry.  The claim predicts that this row becomes an all-null row
over its own keys and that the remaining rows still convert; instead the
`.get` attribute lookup raises `AttributeError` — the `except KeyError`
at line 880 does not catch it — and the whole conversion aborts,
producing no tabular form at all. -/
theorem c4_malformed_row_counterexample :
    tableToPandas exGrid4 false = .error .attributeErr
  ∧ ∀ df : DFrame, tableToPandas exGrid4 false ≠ .ok df := by
  refine ⟨rfl, ?_⟩
  intro df h
  rw [show tableToPandas exGrid4 false = .error .attributeErr from rfl] at h
  exact Except.noConfusion h

/-- C4 (amended): the all-null fallback row is produced only when the
per-column lookup raises `KeyError`, which JSON-shaped wire data never
does (`dict.get` does not raise); a column-key entry that is not a dict
raises `AttributeError` instead, which is not caught by the row-level
handler, so the whole sheet conversion aborts with that exception (only
`convert_pd_to_export`'s coercion path turns it into a null result) and
no remaining row is converted. -/
theorem c4_malformed_row_aborts (g : Grid) (header : Bool) (r : WireRow)
    (k v : Val) (hr : r ∈ g) (hc : (k, CellV.raw v) ∈ r) :
    tableToPandas g header = .error .attributeErr := by
  have hb := buildRows_raw g r k v hr hc
  simp [tableToPandas, hb]

/-- C4 witness: the amended statement applied to `exGrid4w`, whose single
row mixes a well-formed cell with a malformed one. -/
theorem c4_malformed_row_aborts_witness :
    tableToPandas exGrid4w true = .error .attributeErr :=
  c4_malformed_row_aborts exGrid4w true
    [(Val.vStr "A", CellV.obj (some (Val.vInt 7))), (Val.vStr "B", CellV.raw Val.vNone)]
    (Val.vStr "B") Val.vNone (by decide) (by decide)

/-! ### Claim C5 -/

/-- C5 counterexample: the sheet `exGridNull` is a wire dict (not a
DataFrame) whose coercion attempt fails — after pruning, the frame is
empty and the header step's `df.iloc[0]` raises `IndexError`.  The claim
predicts a null result without an exception; instead `IndexError` is not
among the caught kinds (line 995) and propagates out of
`convert_pd_to_export`. -/
theorem c5_convert_counterexample :
    convertPdToExport [("s", SheetVal.wire exGridNull)] true = .error .indexErr
  ∧ convertPdToExport [("s", SheetVal.wire exGridNull)] true ≠ .ok none := by
  refine ⟨rfl, ?_⟩
  intro h
  rw [show convertPdToExport [("s", SheetVal.wire exGridNull)] true
      = .error .indexErr from rfl] at h
  exact Except.noConfusion h

/-- C5 (amended): when the sheets are not all DataFrames and the coercion
attempt (`self.table_to_pd()`) fails with one of the caught kinds
`TypeError`, `ValueError`, `KeyError`, `AttributeError`, the whole
conversion aborts and returns a null result, raising no exception and
returning no partial wire document; a coercion failure of any other kind
(e.g. `IndexError`) propagates as an exception instead. -/
theorem c5_caught_failure_returns_none (t : Table) (header : Bool) (e : PyErr)
    (hnd : t.all (fun s => isDf s.2) = false)
    (hc : tableToPd t true true = .error e)
    (hcaught : caughtInConvert e = true) :
    convertPdToExport t header = .ok none := by
  simp [convertPdToExport, hnd, hc, hcaught]

/-- C5 witness: a sheet that is a plain string cannot be coerced
(`TypeError` from indexing it), so the conversion returns null. -/
theorem c5_caught_failure_returns_none_witness :
    convertPdToExport [("s", SheetVal.junkStr "oops")] true = .ok none :=
  c5_caught_failure_returns_none [("s", SheetVal.junkStr "oops")] true .typeErr
    (by decide) rfl (by decide)

/-! ### Claim C6 -/

/-- C6 counterexample: in `exGrid6bad` the original first row is
all-null, so pruning removes the row with index label 0.  The claim
predicts that the surviving first row supplies the column names, is
removed, and the rest is re-indexed; instead `df.drop(0)` (line 888)
drops by label, finds no label 0, raises `KeyError`, and no tabular form
is produced. -/
theorem c6_pruned_first_row_counterexample :
    tableToPandas exGrid6bad true = .error .keyErr
  ∧ ∀ df : DFrame, tableToPandas exGrid6bad true ≠ .ok df := by
  refine ⟨rfl, ?_⟩
  intro df h
  rw [show tableToPandas exGrid6bad true = .error .keyErr from rfl] at h
  exact Except.noConfusion h

/-- C6 (amended): with `header=true`, when the row that survives pruning
at ordinal position 0 still carries index label 0 (i.e. the original
first row was not pruned), that row supplies the column names, the
label-0 row is removed, and the remaining rows are re-indexed
contiguously from 0 — in particular the spec's example grid
`{0: {A: "x", B: "y"}, 1: {A: 1, B: 2}}` yields columns `"x"`, `"y"` and
the single data row `[1, 2]`.  When pruning dropped the original first
row, the removal instead raises `KeyError` (see the counterexample). -/
theorem c6_header_label_zero :
    (∀ (g : Grid) (data : List (List (Val × Val))) (hdr : List Val)
        (rest : List (Nat × List Val)),
      buildRows g = .ok data →
      (dropCols (dropRows (rectFrame data))).rows = (0, hdr) :: rest →
      tableToPandas g true = .ok ⟨hdr, rest.map (fun lr => lr.2)⟩)
  ∧ tableToPandas exGrid6 true
      = .ok ⟨[Val.vStr "x", Val.vStr "y"], [[Val.vInt 1, Val.vInt 2]]⟩ := by
  constructor
  · intro g data hdr rest hb hpf
    have hpw := pairwise_pruned data
    rw [hpf] at hpw
    have hrel := (List.pairwise_cons.mp hpw).1
    have htail := (List.pairwise_cons.mp hpw).2
    have hAH : applyHeader (dropCols (dropRows (rectFrame data)))
        = .ok ⟨hdr, rest⟩ := by
      unfold applyHeader
      rw [hpf]
      have hfil : ((0, hdr) :: rest).filter (fun lr => lr.1 != 0) = rest := by
        rw [List.filter_cons]
        simp only [bne_self_eq_false, Bool.false_eq_true, if_false]
        refine filter_eq_self_of_all _ _ ?_
        intro p hp
        have hlt : 0 < p.1 := hrel p hp
        simp only [bne_iff_ne, ne_eq]
        omega
      simp [hfil]
    have hsort : sortIndexRows rest = rest :=
      sortIndexRows_of_pairwise rest (htail.imp (fun h => Nat.le_of_lt h))
    simp [tableToPandas, hb, hAH, hsort]
  · rfl

/-- C6 witness: the general statement applied to the spec's example grid
`exGrid6`, whose pruned frame keeps its label-0 row. -/
theorem c6_header_label_zero_witness :
    tableToPandas exGrid6 true
      = .ok ⟨[Val.vStr "x", Val.vStr "y"], [[Val.vInt 1, Val.vInt 2]]⟩ :=
  c6_header_label_zero.1 exGrid6 exData6 [Val.vStr "x", Val.vStr "y"]
    [(1, [Val.vInt 1, Val.vInt 2])] rfl rfl

/-! ### Claim C7 -/

/-- Helper: with `header=false`, a successful conversion returns exactly
the pruned frame's columns. -/
theorem tableToPandas_false_of_build (g : Grid) (data : List (List (Val × Val)))
    (hb : buildRows g = .ok data) :
    tableToPandas g false
      = .ok ⟨(dropCols (dropRows (rectFrame data))).cols,
          (sortIndexRows (dropCols (dropRows (rectFrame data))).rows).map
            (fun lr => lr.2)⟩ := by
  simp [tableToPandas, hb]

/-- C7: for every wire sheet grid, a column key whose cell is null (or
absent) in every built row is dropped by the wire→tabular conversion: it
is not among the pruned frame's columns, and with `header=false` not
among the returned frame's columns; and for the spec's concrete 3×3 grid
with all-null column `C`, the conversion yields the 2-column frame
`exDf7` whose re-export declares `columnCount = 2`. -/
theorem c7_all_null_column_dropped :
    (∀ (g : Grid) (data : List (List (Val × Val))) (k : Val),
      buildRows g = .ok data →
      k ∈ unionKeys data →
      (∀ row ∈ data, (rectCell row k).isNA = true) →
      k ∉ (dropCols (dropRows (rectFrame data))).cols
        ∧ ∀ df : DFrame, tableToPandas g false = .ok df → k ∉ df.cols)
  ∧ tableToPandas exGrid7 true = .ok exDf7
  ∧ (convertSheet "s" exDf7 true).columnCount = 2 := by
  refine ⟨?_, rfl, rfl⟩
  intro g data k hb hk hnull
  have hmain : k ∉ (dropCols (dropRows (rectFrame data))).cols := by
    intro hmem
    have hmem' : k ∈ maskFilter (keepMask (dropRows (rectFrame data)))
        (dropRows (rectFrame data)).cols := hmem
    obtain ⟨j, hmask, hcolk⟩ := mem_maskFilter _ _ _ hmem'
    have hmask' : ((List.range (dropRows (rectFrame data)).cols.length).map
        (colNonNull (dropRows (rectFrame data)).rows)).get? j = some true := hmask
    rw [List.get?_map] at hmask'
    obtain ⟨j', hj', hcn⟩ := Option.map_eq_some'.mp hmask'
    have hjlt : j < (dropRows (rectFrame data)).cols.length := by
      by_contra hge
      rw [List.get?_eq_none.mpr (by simpa [List.length_range] using Nat.le_of_not_lt hge)] at hj'
      exact Option.noConfusion hj'
    have hjj : j' = j := by
      have := List.get?_range (by simpa [List.length_range] using hjlt)
      rw [this] at hj'
      exact (Option.some.inj hj').symm
    rw [hjj] at hcn
    obtain ⟨lr, hlr, hmatch⟩ := List.any_eq_true.mp hcn
    have hlr2 : lr ∈ (rectFrame data).rows := (List.mem_filter.mp hlr).1
    have hlr3 : lr.2 ∈ data.map (rectRow (unionKeys data)) :=
      mem_labelFrom_snd _ _ lr hlr2
    obtain ⟨rowd, hrowd, hEq⟩ := List.mem_map.mp hlr3
    have hget : lr.2.get? j = some (rectCell rowd k) := by
      rw [← hEq]
      have : (unionKeys data).get? j = some k := hcolk
      simp only [rectRow, List.get?_map, this, Option.map_some']
    rw [hget] at hmatch
    simp only [Bool.not_eq_true'] at hmatch
    rw [hnull rowd hrowd] at hmatch
    exact Bool.noConfusion hmatch
  refine ⟨hmain, ?_⟩
  intro df hdf
  rw [tableToPandas_false_of_build g data hb] at hdf
  have hdf' := Except.ok.inj hdf
  rw [← hdf']
  exact hmain

/-- C7 witness: the general statement applied to the 3×3 grid `exGrid7`
with the all-null column key `"C"`. -/
theorem c7_all_null_column_dropped_witness :
    Val.vStr "C" ∉ (dropCols (dropRows (rectFrame exData7))).cols
  ∧ ∀ df : DFrame, tableToPandas exGrid7 false = .ok df → Val.vStr "C" ∉ df.cols :=
  c7_all_null_column_dropped.1 exGrid7 exData7 (Val.vStr "C") rfl
    (by decide) (by decide)

/-! ### Claim C8 -/

/-- C8: every element write or update operation that receives a non-2xx
transport status aborts, reports the failure together with the status
code (the `_handle_response` else-branch message embeds
`response.status_code`), and leaves every field of the object in its
prior state — in particular no identifier is assigned.  The theorem
covers the write and update operations of `DataElement`, `TextElement`,
`DataElementGroup` and `TableElement` (the latter two under the guards
that make the request actually happen). -/
theorem c8_non_2xx_preserves_state (r : Response)
    (hcode : r.status_code < 200 ∨ 300 ≤ r.status_code) :
    (∀ (st : DataSt) (eid : String), eid ≠ "" →
        dataWriteToLabfolder st eid r = (st, failPost st.type r))
  ∧ (∀ st : DataSt, st.description ≠ "" →
        dataUpdateOnLabfolder st r = (st, failPut st.type r))
  ∧ (∀ (st : TextSt) (eid : String), eid ≠ "" →
        textWriteToLabfolder st eid r = (st, failPost st.type r))
  ∧ (∀ st : TextSt, st.content ≠ "" →
        textUpdateOnLabfolder st r = (st, failPut st.type r))
  ∧ (∀ (st : GroupSt) (eid : String), eid ≠ "" →
        groupWriteToLabfolder st eid r = (st, failPost st.type r))
  ∧ (∀ st : GroupSt, st.element_id ≠ "" →
        groupUpdateOnLabfolder st r = (st, failPut st.type r))
  ∧ (∀ (st : TableSt) (eid : String) (header : Bool) (t : Table) (doc : WireDoc),
        eid ≠ "" → st.table = some t →
        convertPdToExport t header = .ok (some doc) →
        tableWriteToLabfolder st eid header r = .ok (st, failPost st.type r))
  ∧ (∀ (st : TableSt) (header : Bool) (t : Table) (doc : WireDoc),
        st.table = some t → convertPdToExport t header = .ok (some doc) →
        tableUpdateOnLabfolder st header r = .ok (st, failPut st.type r)) := by
  have hpost : ∀ et : String, handleResponse et r Method.post = (false, failPost et r) :=
    fun et => rfl
  have hput : ∀ et : String, handleResponse et r Method.put = (false, failPut et r) :=
    fun et => rfl
  refine ⟨?_, ?_, ?_, ?_, ?_, ?_, ?_, ?_⟩
  · intro st eid h
    simp [dataWriteToLabfolder, h, hpost]
  · intro st h
    simp [dataUpdateOnLabfolder, h, hput]
  · intro st eid h
    simp [textWriteToLabfolder, h, hpost]
  · intro st h
    simp [textUpdateOnLabfolder, h, hput]
  · intro st eid h
    simp [groupWriteToLabfolder, h, hpost]
  · intro st h
    simp [groupUpdateOnLabfolder, h, hput]
  · intro st eid header t doc h ht hconv
    simp [tableWriteToLabfolder, h, ht, hconv, hpost]
  · intro st header t doc ht hconv
    simp [tableUpdateOnLabfolder, ht, hconv, hput]

/-- C8 witness: a 404 response to a `DataElement` write leaves the
element untouched and prints the message with code 404. -/
theorem c8_non_2xx_preserves_state_witness :
    dataWriteToLabfolder ⟨"DATA", "old", "d"⟩ "e1" ⟨404, "ignored"⟩
      = (⟨"DATA", "old", "d"⟩, failPost "DATA" ⟨404, "ignored"⟩) :=
  (c8_non_2xx_preserves_state ⟨404, "ignored"⟩ (by decide)).1
    ⟨"DATA", "old", "d"⟩ "e1" (by decide)

/-! ### Claim C9 -/

/-- C9: in the tabular→wire conversion, every cell holding `NaN`, `+inf`
or `-inf` is emitted as the wire cell `{value: null}` at its grid
position (shifted one row down when the header row is prepended); in
particular, exporting a frame whose only data cell is `+inf` produces a
grid whose data row holds `{value: null}`, also through the full
`convert_pd_to_export`. -/
theorem c9_nonfinite_to_null :
    (∀ (nm : String) (d : DFrame) (header : Bool) (i j : Nat)
        (r : List Val) (v : Val),
      d.rows.get? i = some r → r.get? j = some v →
      (v = Val.vNaN ∨ v = Val.vInf ∨ v = Val.vNegInf) →
      ∃ row, (convertSheet nm d header).dataTable.get?
          (if header then i + 1 else i) = some row
        ∧ row.get? j = some (Val.vInt (Int.ofNat j), CellV.obj (some Val.vNone)))
  ∧ convertPdToExport [("s", SheetVal.df ⟨[Val.vStr "a"], [[Val.vInf]]⟩)] true
      = .ok (some ⟨[("s", convertSheet "s" ⟨[Val.vStr "a"], [[Val.vInf]]⟩ true)]⟩)
  ∧ (convertSheet "s" ⟨[Val.vStr "a"], [[Val.vInf]]⟩ true).dataTable
      = [[(Val.vInt 0, CellV.obj (some (Val.vStr "a")))],
         [(Val.vInt 0, CellV.obj (some Val.vNone))]] := by
  refine ⟨?_, rfl, rfl⟩
  intro nm d header i j r v hi hj hv
  have hs : sanitize v = Val.vNone := by
    rcases hv with h | h | h <;> subst h <;> rfl
  have hrow : (wireRowFrom 0 r).get? j
      = some (Val.vInt (Int.ofNat j), CellV.obj (some Val.vNone)) := by
    rw [get?_wireRowFrom, hj]
    simp [hs]
  cases header with
  | true =>
    refine ⟨wireRowFrom 0 r, ?_, hrow⟩
    have hg : (convertSheet nm d true).dataTable
        = (d.cols :: d.rows).map (wireRowFrom 0) := rfl
    rw [hg]
    simp only [if_true]
    rw [List.get?_map, List.get?_cons_succ, hi, Option.map_some']
  | false =>
    refine ⟨wireRowFrom 0 r, ?_, hrow⟩
    have hg : (convertSheet nm d false).dataTable = d.rows.map (wireRowFrom 0) := rfl
    rw [hg]
    simp only [Bool.false_eq_true, if_false]
    rw [List.get?_map, hi, Option.map_some']

/-- C9 witness: the general statement applied to the 1×1 frame whose data
cell is `+inf`, with `header=true`. -/
theorem c9_nonfinite_to_null_witness :
    ∃ row, (convertSheet "s" ⟨[Val.vStr "a"], [[Val.vInf]]⟩ true).dataTable.get?
        (if true then 0 + 1 else 0) = some row
      ∧ row.get? 0 = some (Val.vInt (Int.ofNat 0), CellV.obj (some Val.vNone)) :=
  c9_nonfinite_to_null.1 "s" ⟨[Val.vStr "a"], [[Val.vInf]]⟩ true 0 0 [Val.vInf]
    Val.vInf rfl rfl (Or.inr (Or.inl rfl))

/-! ### Claim C10 -/

theorem mem_parseChildren :
    ∀ (cs : List ElemDict) (c : ElemDict) (p : ParsedElement),
      c ∈ cs → (parseDataElement c).1 = some p → p ∈ (parseChildren cs).1 := by
  intro cs
  induction cs with
  | nil => intro c p hc _; simp at hc
  | cons c0 rest ih =>
    intro c p hc hp
    rcases List.mem_cons.mp hc with h1 | h2
    · subst h1
      rcases hEq : parseDataElement c with ⟨o1, n1⟩
      rw [hEq] at hp
      simp only at hp
      subst hp
      rcases hEq2 : parseChildren rest with ⟨ps, n2⟩
      simp [parseChildren, hEq, hEq2]
    · have hmem := ih c p h2 hp
      rcases hEq : parseDataElement c0 with ⟨o1, n1⟩
      rcases hEq2 : parseChildren rest with ⟨ps, n2⟩
      rw [hEq2] at hmem
      cases o1 with
      | some q => simp [parseChildren, hEq, hEq2]; exact Or.inr hmem
      | none => simp [parseChildren, hEq, hEq2]; exact hmem

/-- C10: a wire record whose type tag is not one of the recognized kinds
parses to no object and emits exactly one `Unknown element type`
diagnostic; a record with a recognized tag parses to the variant object
of that tag; in a batch (`Entry.get_entry`'s comprehension) every sibling
with a recognized tag still parses at its position; and inside a group
container every child with a recognized tag parses and appears among the
group's parsed children. -/
theorem c10_unknown_tag_skipped :
    (∀ e : ElemDict, recognizedTag e.etype = false → parseDataElement e = (none, 1))
  ∧ (∀ e : ElemDict, recognizedTag e.etype = true →
      ∃ p, (parseDataElement e).1 = some p ∧ tagOf p = e.etype)
  ∧ (∀ (batch : List ElemDict) (i : Nat) (e : ElemDict),
      batch.get? i = some e → recognizedTag e.etype = true →
      ∃ p, (parseBatch batch).get? i = some (some p) ∧ tagOf p = e.etype)
  ∧ (∀ (e c : ElemDict), e.etype = "DATA_ELEMENT_GROUP" → c ∈ e.childrenOf →
      recognizedTag c.etype = true →
      ∃ p ps n, (parseDataElement c).1 = some p
        ∧ parseDataElement e = (some (.group e.titleOf ps), n) ∧ p ∈ ps) := by
  have hA : ∀ e : ElemDict, recognizedTag e.etype = false →
      parseDataElement e = (none, 1) := by
    intro e h
    obtain ⟨t, i, ttl, c, d, eid, oct, ch⟩ := e
    simp only [ElemDict.etype] at h
    have h1 : t ≠ "DATA_ELEMENT_GROUP" := by
      intro hEq; subst hEq; simp [recognizedTag] at h
    have h2 : t ≠ "FILE" := by
      intro hEq; subst hEq; simp [recognizedTag] at h
    have h3 : t ≠ "IMAGE" := by
      intro hEq; subst hEq; simp [recognizedTag] at h
    have h4 : t ≠ "TEXT" := by
      intro hEq; subst hEq; simp [recognizedTag] at h
    have h5 : t ≠ "DESCRIPTIVE_DATA" := by
      intro hEq; subst hEq; simp [recognizedTag] at h
    have h6 : t ≠ "DATA" := by
      intro hEq; subst hEq; simp [recognizedTag] at h
    have h7 : t ≠ "TABLE" := by
      intro hEq; subst hEq; simp [recognizedTag] at h
    simp [parseDataElement, h1, h2, h3, h4, h5, h6, h7]
  have hB : ∀ e : ElemDict, recognizedTag e.etype = true →
      ∃ p, (parseDataElement e).1 = some p ∧ tagOf p = e.etype := by
    intro e h
    obtain ⟨t, i, ttl, c, d, eid, oct, ch⟩ := e
    simp only [ElemDict.etype] at h ⊢
    simp only [recognizedTag, Bool.or_eq_true, beq_iff_eq] at h
    rcases h with ((((((h | h) | h) | h) | h) | h) | h) <;> subst h
    · exact ⟨.group ttl (parseChildren ch).1, by simp [parseDataElement], rfl⟩
    · exact ⟨.file i, by simp [parseDataElement], rfl⟩
    · exact ⟨.image i ttl oct, by simp [parseDataElement], rfl⟩
    · exact ⟨.text i c, by simp [parseDataElement], rfl⟩
    · exact ⟨.descriptive ttl i d, by simp [parseDataElement], rfl⟩
    · exact ⟨.data i d, by simp [parseDataElement], rfl⟩
    · exact ⟨.table i eid, by simp [parseDataElement], rfl⟩
  refine ⟨hA, hB, ?_, ?_⟩
  · intro batch i e hi hrec
    obtain ⟨p, hp, htag⟩ := hB e hrec
    refine ⟨p, ?_, htag⟩
    simp only [parseBatch, List.get?_map, hi, Option.map_some']
    rw [hp]
  · intro e c hty hc hrec
    obtain ⟨p, hp, _⟩ := hB c hrec
    obtain ⟨t, i, ttl, cc, dd, eid, oct, ch⟩ := e
    simp only [ElemDict.etype] at hty
    subst hty
    simp only [ElemDict.childrenOf] at hc
    refine ⟨p, (parseChildren ch).1, (parseChildren ch).2, hp, ?_, ?_⟩
    · simp [parseDataElement, ElemDict.titleOf]
    · exact mem_parseChildren ch c p hc hp

/-- C10 witness: a `WELL_PLATE` record parses to nothing with one
diagnostic, while its recognized `TEXT` sibling in the same batch still
parses; and inside a group, a recognized child parses to a member of the
parsed group's children. -/
theorem c10_unknown_tag_skipped_witness :
    parseDataElement (.mk "WELL_PLATE" "w1" "" "" "" "" "" []) = (none, 1)
  ∧ (∃ p, (parseBatch [.mk "WELL_PLATE" "w1" "" "" "" "" "" [],
        .mk "TEXT" "t1" "" "hi" "" "" "" []]).get? 1 = some (some p)
      ∧ tagOf p = (ElemDict.mk "TEXT" "t1" "" "hi" "" "" "" []).etype)
  ∧ (∃ p ps n,
      (parseDataElement (.mk "TEXT" "t1" "" "hi" "" "" "" [])).1 = some p
      ∧ parseDataElement (.mk "DATA_ELEMENT_GROUP" "g1" "G" "" "" "" ""
          [.mk "TEXT" "t1" "" "hi" "" "" "" []])
        = (some (.group (ElemDict.mk "DATA_ELEMENT_GROUP" "g1" "G" "" "" "" ""
            [.mk "TEXT" "t1" "" "hi" "" "" "" []]).titleOf ps), n)
      ∧ p ∈ ps) :=
  ⟨c10_unknown_tag_skipped.1 (.mk "WELL_PLATE" "w1" "" "" "" "" "" []) (by decide),
   c10_unknown_tag_skipped.2.2.1
     [.mk "WELL_PLATE" "w1" "" "" "" "" "" [], .mk "TEXT" "t1" "" "hi" "" "" "" []]
     1 (.mk "TEXT" "t1" "" "hi" "" "" "" []) rfl (by decide),
   c10_unknown_tag_skipped.2.2.2
     (.mk "DATA_ELEMENT_GROUP" "g1" "G" "" "" "" "" [.mk "TEXT" "t1" "" "hi" "" "" "" []])
     (.mk "TEXT" "t1" "" "hi" "" "" "" []) rfl (by simp [ElemDict.childrenOf])
     (by decide)⟩

end LabfolderPy
